import Mathlib

/-!
Verification of the Supabase project lifecycle manager
(`src/core/main.py`, with `status` from `src/cli/cli.py`).

The Python code is shallowly embedded: ambient effects (socket probing,
randomness, the clock, the filesystem, subprocess execution) are passed in
explicitly as oracle parameters, and each method becomes a pure Lean
function over those oracles.
-/

namespace Supabase

/-! ## Port allocation (`check_port_availability`, `find_available_ports`) -/

/-- Embedding of `check_port_availability`: binding a listening socket on
`port` succeeds exactly when the environment does not occupy the port.
The environment oracle `occupied` is assumed stable over the allocation
run (the accepted TOCTOU model of the design). -/
def check_port_availability (occupied : Nat → Bool) (port : Nat) : Bool :=
  !occupied port

/-- The probe loop of `find_available_ports` for one service:
`port = base_port; while not check_port_availability(port): port += 1;
if port > base_port + 100: raise`.  `fuel` counts how many further ports
the loop may still advance to before the `port > base_port + 100` guard
fires, so the loop starting at `base_port` runs with `fuel = 100`.
Returns `none` when the loop raises. -/
def probeAux (occupied : Nat → Bool) : Nat → Nat → Option Nat
  | fuel, port =>
    if check_port_availability occupied port then some port
    else
      match fuel with
      | 0 => none
      | f + 1 => probeAux occupied f (port + 1)

/-- One service's probe, started at its base port with the full window. -/
def probeFrom (occupied : Nat → Bool) (base : Nat) : Option Nat :=
  probeAux occupied 100 base

instance {ε α : Type} [DecidableEq ε] [DecidableEq α] : DecidableEq (Except ε α) :=
  fun x y =>
    match x, y with
    | .ok a, .ok b =>
      if h : a = b then isTrue (by rw [h]) else isFalse (by intro hc; cases hc; exact h rfl)
    | .error a, .error b =>
      if h : a = b then isTrue (by rw [h]) else isFalse (by intro hc; cases hc; exact h rfl)
    | .ok _, .error _ => isFalse (by intro hc; cases hc)
    | .error _, .ok _ => isFalse (by intro hc; cases hc)

/-- Embedding of `find_available_ports`: services are probed independently
in iteration order; the first exhausted service aborts the whole
allocation with the exception message of the source, discarding any
ports already found for earlier services. -/
def find_available_ports (occupied : Nat → Bool) :
    List (String × Nat) → Except String (List (String × Nat))
  | [] => Except.ok []
  | (service, base_port) :: rest =>
    match probeFrom occupied base_port with
    | some port =>
      match find_available_ports occupied rest with
      | Except.ok tail => Except.ok ((service, port) :: tail)
      | Except.error e => Except.error e
    | none =>
      Except.error ("Could not find available port for " ++ service ++ " service")

/-- All 100 ports `base, base+1, …, base+99` are occupied
(the window size the spec names). -/
def window100Occupied (occupied : Nat → Bool) (base : Nat) : Bool :=
  (List.range 100).all fun i => occupied (base + i)

/-- All 101 ports `base, base+1, …, base+100` are occupied
(the window the code actually probes before raising). -/
def window101Occupied (occupied : Nat → Bool) (base : Nat) : Bool :=
  (List.range 101).all fun i => occupied (base + i)

/-- Some port of the 100-port window starting at `base` is free. -/
def freeInWindow100 (occupied : Nat → Bool) (base : Nat) : Bool :=
  (List.range 100).any fun i => !occupied (base + i)

/-- Concrete environment: only port 3000 is occupied. -/
def occOnly3000 (p : Nat) : Bool := p == 3000

/-- Concrete environment: exactly the 100 ports 3000–3099 are occupied. -/
def occ3000to3099 (p : Nat) : Bool := decide (3000 ≤ p) && decide (p < 3100)

/-- Concrete environment: every port is free. -/
def allFree (_ : Nat) : Bool := false

/-! ## Credential issuance (`generate_jwt_keys`) -/

/-- The URL-safe base64 alphabet used by `secrets.token_urlsafe`:
`A–Z`, `a–z`, `0–9`, `-` (62), `_` (63). -/
def b64Char (n : Nat) : Char :=
  if n < 26 then Char.ofNat (65 + n)
  else if n < 52 then Char.ofNat (97 + (n - 26))
  else if n < 62 then Char.ofNat (48 + (n - 52))
  else if n = 62 then Char.ofNat 45
  else Char.ofNat 95

/-- URL-safe base64 of a byte list with `=` padding stripped, as
`base64.urlsafe_b64encode(bytes).rstrip(b"=")` produces for
`secrets.token_urlsafe`. -/
def b64EncodeNoPad : List Nat → List Char
  | [] => []
  | [b1] => [b64Char (b1 / 4), b64Char (b1 % 4 * 16)]
  | [b1, b2] =>
    [b64Char (b1 / 4), b64Char (b1 % 4 * 16 + b2 / 16), b64Char (b2 % 16 * 4)]
  | b1 :: b2 :: b3 :: rest =>
    b64Char (b1 / 4) :: b64Char (b1 % 4 * 16 + b2 / 16) ::
      b64Char (b2 % 16 * 4 + b3 / 64) :: b64Char (b3 % 64) :: b64EncodeNoPad rest

/-- Embedding of
`secrets.token_urlsafe(16).lower().replace("_", "").replace("-", "")[:20]`,
the project-reference generator, applied to the 16 random bytes drawn. -/
def mkProjectRef (randomBytes : List Nat) : String :=
  String.mk ((((b64EncodeNoPad randomBytes).map Char.toLower).filter
    fun c => !(c == Char.ofNat 95 || c == Char.ofNat 45)).take 20)

/-- A JWT claim set as built by `generate_jwt_keys`:
`{"iss": …, "ref": …, "role": …, "iat": …, "exp": …}`. -/
structure Payload where
  iss : String
  ref : String
  role : String
  iat : Nat
  exp : Nat
deriving DecidableEq

/-- A compact signed token: the claim set plus its HMAC-SHA256 signature.
The HMAC itself is kept abstract as an oracle `hmac : secret → payload →
signature`. -/
structure Jwt where
  payload : Payload
  sig : String
deriving DecidableEq

/-- Embedding of `jwt.encode(payload, secret, algorithm="HS256")`. -/
def jwtEncode (hmac : String → Payload → String) (payload : Payload)
    (secret : String) : Jwt :=
  ⟨payload, hmac secret payload⟩

/-- Embedding of `jwt.decode` with the HS256 algorithm: succeeds iff the signature
matches the claimed secret. -/
def jwtDecode (hmac : String → Payload → String) (token : Jwt)
    (secret : String) : Option Payload :=
  if token.sig = hmac secret token.payload then some token.payload else none

/-- Ambient effects consumed by `generate_jwt_keys`: the HMAC primitive,
the fresh random signing secret (`secrets.token_urlsafe(48)`), the 16
random bytes drawn if a project reference must be generated, and the
current Unix time (`int(datetime.now().timestamp())`). -/
structure CredEnv where
  hmac : String → Payload → String
  secret_key : String
  ref_bytes : List Nat
  now : Nat

/-- Embedding of `generate_jwt_keys(project_ref)`.  A falsy (empty)
`project_ref` is regenerated from fresh random bytes.  Returns
`(anon_key, service_key, secret_key)`. -/
def generate_jwt_keys (env : CredEnv) (project_ref : String) :
    Jwt × Jwt × String :=
  let secret_key := env.secret_key
  let ref := if project_ref = "" then mkProjectRef env.ref_bytes else project_ref
  let current_time := env.now
  let expiry_time := current_time + 365 * 24 * 60 * 60 * 10
  let anon_payload : Payload :=
    ⟨"supabase", ref, "anon", current_time, expiry_time⟩
  let service_payload : Payload :=
    ⟨"supabase", ref, "service_role", current_time, expiry_time⟩
  let anon_key := jwtEncode env.hmac anon_payload secret_key
  let service_key := jwtEncode env.hmac service_payload secret_key
  (anon_key, service_key, secret_key)

/-! ## Data model: `ProjectConfig` and the projects directory -/

/-- The `db_config` dictionary of `create_project` (the db port is a
string in the source: `db_port="5432"`). -/
structure DbConfig where
  host : String
  port : String
  user : String
  password : String
  database : String
deriving DecidableEq

/-- The persisted `supabase_config.json` object, stored structurally
(the JSON serialization is a bijective rendering of these fields). -/
structure Config where
  project_name : String
  project_ref : String
  machine_size : String
  specs : String
  machine_ip : String
  db_config : DbConfig
  anon_key : Jwt
  service_key : Jwt
  jwt_secret : String
  created_at : String
  ports : List (String × Nat)
deriving DecidableEq

/-- One project directory under the projects root: the three files the
lifecycle manager reads or writes. -/
structure ProjectDir where
  config : Option Config
  composeFile : Option String
  kongFile : Option String
deriving DecidableEq

/-- The projects root, as an association list from project name to its
directory.  A name being present models `os.path.exists(project_path)`. -/
abbrev FS := List (String × ProjectDir)

def lookupFS (fs : FS) (name : String) : Option ProjectDir :=
  (fs.find? fun e => e.1 == name).map fun e => e.2

def setFS : FS → String → ProjectDir → FS
  | [], name, d => [(name, d)]
  | e :: rest, name, d =>
    if e.1 == name then (name, d) :: rest else e :: setFS rest name d

/-- Embedding of `shutil.rmtree(project_path)`. -/
def removeFS (fs : FS) (name : String) : FS :=
  fs.filter fun e => !(e.1 == name)

/-- Ambient effects consumed by the lifecycle operations: the projects
root path, the socket-bind oracle, and the randomness/clock/network
draws made during one `create_project` call (`ref_bytes` for the ref
generated at line 162; `ref_bytes2` for the draw `generate_jwt_keys`
would make if handed a falsy ref). -/
structure Env where
  projects_dir : String
  occupied : Nat → Bool
  hmac : String → Payload → String
  secret_key : String
  ref_bytes : List Nat
  ref_bytes2 : List Nat
  now : Nat
  nowIso : String
  machine_ip : String

/-- Embedding of `os.path.join(self.projects_dir, project_name)`. -/
def projectPath (env : Env) (project_name : String) : String :=
  env.projects_dir ++ "/" ++ project_name

/-! ## Runtime bridge (`_run_compose`) -/

/-- The two container-runtime command dialects: `docker compose …`
(primary) and `docker-compose …` (legacy). -/
inductive Dialect
  | primary
  | legacy
deriving DecidableEq

/-- Host state for `_run_compose`: which dialect executables
`shutil.which` finds, and what each dialect's `subprocess.run` does for
given args — `Except.ok (returncode, stdout, stderr)` for a completed
process, `Except.error msg` when the invocation itself raises. -/
structure RuntimeEnv where
  docker_installed : Bool
  dockercompose_installed : Bool
  runPrimary : List String → Except String (Int × String × String)
  runLegacy : List String → Except String (Int × String × String)

def runDialect (renv : RuntimeEnv) (d : Dialect) (args : List String) :
    Except String (Int × String × String) :=
  match d with
  | .primary => renv.runPrimary args
  | .legacy => renv.runLegacy args

/-- The `for cmd in commands` loop of `_run_compose`, carrying
`(last_rc, last_out, last_err)`.  A zero exit returns immediately; a
non-zero exit records the result and advances to the next dialect; a
raised invocation records `last_rc, last_err = 1, str(e)` (leaving
`last_out` untouched) and advances. -/
def composeLoop (renv : RuntimeEnv) (args : List String) :
    List Dialect → Int × String × String → Int × String × String
  | [], last => last
  | d :: rest, last =>
    match runDialect renv d args with
    | .ok (rc, out, err) =>
      if rc == 0 then (0, out, err) else composeLoop renv args rest (rc, out, err)
    | .error e => composeLoop renv args rest (1, last.2.1, e)

/-- Embedding of `_run_compose(cwd, args)` (the working directory does
not influence which command runs). -/
def run_compose (renv : RuntimeEnv) (args : List String) : Int × String × String :=
  let commands : List Dialect :=
    (if renv.docker_installed then [Dialect.primary] else []) ++
      (if renv.dockercompose_installed then [Dialect.legacy] else [])
  if commands.isEmpty then (1, "", "docker/docker-compose not found")
  else composeLoop renv args commands (1, "", "")

/-! ## Topology rendering (`create_docker_compose`, `create_kong_config`) -/

/-- The compact serialization of a signed token as it is interpolated
into the generated files: a rendering determined by the token value
(modelling the JOSE compact form `header.payload.signature`). -/
def jwtCompact (t : Jwt) : String :=
  t.payload.iss ++ "." ++ t.payload.ref ++ "." ++ t.payload.role ++ "." ++
    toString t.payload.iat ++ "." ++ toString t.payload.exp ++ "." ++ t.sig

/-- Embedding of the dictionary access `ports[service]` on the allocated
port map.  Every key used by
the template is present in `base_ports`, so the default branch is dead in
the `create_project` flow. -/
def getPort (ports : List (String × Nat)) (service : String) : Nat :=
  ((ports.find? fun e => e.1 == service).map fun e => e.2).getD 0

/-- Embedding of the `docker_compose_content` f-string of
`create_docker_compose(project_path, project_name, config)`, transcribed
byte-for-byte from the source with each interpolation replaced by the
corresponding config field (`\x27` / `\x22` escape apostrophes and
quotes). -/
def docker_compose_content (project_name : String) (config : Config) : String :=
  let ports := config.ports
  let db := config.db_config
  let anon_key := jwtCompact config.anon_key
  let service_key := jwtCompact config.service_key
  "\nversion: \x273.8\x27\n\nservices:\n  studio:\n    image: supabase/studio:latest\n    p"
    ++ "orts:\n      - "
    ++ toString (getPort ports "studio")
    ++ ":3000\n    environment:\n      SUPABASE_URL: http://kong:"
    ++ toString (getPort ports "kong")
    ++ "\n      SUPABASE_REST_URL: http://localhost:"
    ++ toString (getPort ports "kong")
    ++ "/rest/v1/\n      SUPABASE_ANON_KEY: "
    ++ anon_key
    ++ "\n      SUPABASE_SERVICE_KEY: "
    ++ service_key
    ++ "\n      STUDIO_PG_META_URL: http://meta:"
    ++ toString (getPort ports "meta")
    ++ "\n    \n  kong:\n    image: kong:latest\n    ports:\n      - "
    ++ toString (getPort ports "kong")
    ++ ":8000\n    environment:\n      KONG_DATABASE: off\n      KONG_DECLARATIVE_CONFIG: /opt/k"
    ++ "ong/kong.yml\n      KONG_DNS_ORDER: LAST,A,CNAME\n      KONG_PLUGINS: request-transforme"
    ++ "r,cors,key-auth,acl,opentelemetry\n    volumes:\n      - ./kong.yml:/opt/kong/kong.yml\n"
    ++ "    healthcheck:\n      test: [\"CMD\", \"kong\", \"health\"]\n      interval: 10s\n    "
    ++ "  timeout: 5s\n      retries: 5\n    \n  auth:\n    image: supabase/gotrue:v2\n    ports"
    ++ ":\n      - "
    ++ toString (getPort ports "auth")
    ++ ":9999\n    environment:\n      GOTRUE_API_HOST: 0.0.0.0\n      GOTRUE_API_PORT: 9999\n  "
    ++ "    API_EXTERNAL_URL: http://localhost:"
    ++ toString (getPort ports "kong")
    ++ "\n      \n      GOTRUE_DB_DRIVER: postgres\n      GOTRUE_DB_DATABASE_URL: postgresql://"
    ++ db.user
    ++ ":"
    ++ db.password
    ++ "@"
    ++ db.host
    ++ ":"
    ++ db.port
    ++ "/"
    ++ project_name
    ++ "\n      \n      GOTRUE_SITE_URL: http://localhost:"
    ++ toString (getPort ports "studio")
    ++ "\n      GOTRUE_URI_ALLOW_LIST: \x27*\x27\n      GOTRUE_DISABLE_SIGNUP: false\n      \n  "
    ++ "    GOTRUE_JWT_ADMIN_ROLES: service_role\n      GOTRUE_JWT_AUD: authenticated\n      GOT"
    ++ "RUE_JWT_DEFAULT_GROUP_NAME: authenticated\n      GOTRUE_JWT_EXP: 3600\n      GOTRUE_JWT_"
    ++ "SECRET: "
    ++ config.jwt_secret
    ++ "\n      \n      GOTRUE_EXTERNAL_EMAIL_ENABLED: true\n      GOTRUE_MAILER_AUTOCONFIRM: tr"
    ++ "ue\n      GOTRUE_SMTP_HOST: localhost\n      GOTRUE_SMTP_PORT: 2500\n      GOTRUE_SMTP_U"
    ++ "SER: \"\"\n      GOTRUE_SMTP_PASS: \"\"\n      GOTRUE_SMTP_ADMIN_EMAIL: admin@example.co"
    ++ "m\n      GOTRUE_MAILER_URLPATHS_INVITE: /auth/v1/verify\n      GOTRUE_MAILER_URLPATHS_CO"
    ++ "NFIRMATION: /auth/v1/verify\n      GOTRUE_MAILER_URLPATHS_RECOVERY: /auth/v1/verify\n   "
    ++ "   GOTRUE_MAILER_URLPATHS_EMAIL_CHANGE: /auth/v1/verify\n    healthcheck:\n      test: ["
    ++ "\"CMD\", \"wget\", \"--quiet\", \"--tries=1\", \"--spider\", \"http://localhost:9999/hea"
    ++ "lth\"]\n      interval: 10s\n      timeout: 5s\n      retries: 5\n    \n  rest:\n    ima"
    ++ "ge: postgrest/postgrest:latest\n    ports:\n      - "
    ++ toString (getPort ports "rest")
    ++ ":3000\n    environment:\n      PGRST_DB_URI: postgresql://"
    ++ db.user
    ++ ":"
    ++ db.password
    ++ "@"
    ++ db.host
    ++ ":"
    ++ db.port
    ++ "/"
    ++ project_name
    ++ "\n      PGRST_DB_SCHEMA: public\n      PGRST_DB_ANON_ROLE: anon\n      PGRST_JWT_SECRET:"
    ++ " "
    ++ config.jwt_secret
    ++ "\n    healthcheck:\n      test: [\"CMD\", \"wget\", \"--quiet\", \"--tries=1\", \"--spid"
    ++ "er\", \"http://localhost:3000/\"]\n      interval: 10s\n      timeout: 5s\n      retries"
    ++ ": 5\n    \n  realtime:\n    image: supabase/realtime:latest\n    ports:\n      - "
    ++ toString (getPort ports "realtime")
    ++ ":4000\n    environment:\n      PORT: 4000\n      DB_HOST: "
    ++ db.host
    ++ "\n      DB_PORT: "
    ++ db.port
    ++ "\n      DB_NAME: "
    ++ project_name
    ++ "\n      DB_USER: "
    ++ db.user
    ++ "\n      DB_PASSWORD: "
    ++ db.password
    ++ "\n      DB_SSL: \x27false\x27\n      JWT_SECRET: "
    ++ config.jwt_secret
    ++ "\n      REPLICATION_MODE: RLS\n      REPLICATION_POLL_INTERVAL: 100\n      SECURE_CHANNE"
    ++ "LS: \x27true\x27\n      SLOT_NAME: supabase_realtime_rls\n      TEMPORARY_SLOT: \x27true"
    ++ "\x27\n    healthcheck:\n      test: [\"CMD\", \"curl\", \"-f\", \"http://localhost:4000/"
    ++ "api/health\"]\n      interval: 10s\n      timeout: 5s\n      retries: 5\n    \n  storage"
    ++ ":\n    image: supabase/storage-api:latest\n    ports:\n      - "
    ++ toString (getPort ports "storage")
    ++ ":5000\n    environment:\n      ANON_KEY: "
    ++ anon_key
    ++ "\n      SERVICE_KEY: "
    ++ service_key
    ++ "\n      POSTGREST_URL: http://rest:3000\n      PGRST_JWT_SECRET: "
    ++ config.jwt_secret
    ++ "\n      DATABASE_URL: postgresql://"
    ++ db.user
    ++ ":"
    ++ db.password
    ++ "@"
    ++ db.host
    ++ ":"
    ++ db.port
    ++ "/"
    ++ project_name
    ++ "\n      FILE_SIZE_LIMIT: 52428800\n      STORAGE_BACKEND: file\n      FILE_STORAGE_BACKE"
    ++ "ND_PATH: /var/lib/storage\n      TENANT_ID: stub\n      SKIP_API_HOST_CHECK: true\n     "
    ++ " REGION: stub\n    volumes:\n      - ./storage:/var/lib/storage\n    healthcheck:\n     "
    ++ " test: [\"CMD\", \"wget\", \"--quiet\", \"--tries=1\", \"--spider\", \"http://localhost:"
    ++ "5000/status\"]\n      interval: 10s\n      timeout: 5s\n      retries: 5\n    \n  meta:"
    ++ "\n    image: supabase/postgres-meta:latest\n    ports:\n      - "
    ++ toString (getPort ports "meta")
    ++ ":8080\n    environment:\n      PG_META_PORT: 8080\n      PG_META_DB_HOST: "
    ++ db.host
    ++ "\n      PG_META_DB_PORT: "
    ++ db.port
    ++ "\n      PG_META_DB_NAME: "
    ++ project_name
    ++ "\n      PG_META_DB_USER: "
    ++ db.user
    ++ "\n      PG_META_DB_PASSWORD: "
    ++ db.password
    ++ "\n    healthcheck:\n      test: [\"CMD\", \"wget\", \"--quiet\", \"--tries=1\", \"--spid"
    ++ "er\", \"http://localhost:8080/health\"]\n      interval: 10s\n      timeout: 5s\n      r"
    ++ "etries: 5\n    \n  functions:\n    image: supabase/edge-runtime:latest\n    ports:\n    "
    ++ "  - "
    ++ toString (getPort ports "functions")
    ++ ":8081\n    environment:\n      SUPABASE_URL: http://kong:"
    ++ toString (getPort ports "kong")
    ++ "\n      SUPABASE_ANON_KEY: "
    ++ anon_key
    ++ "\n      SUPABASE_SERVICE_KEY: "
    ++ service_key
    ++ "\n      SUPABASE_DB_URL: postgresql://"
    ++ db.user
    ++ ":"
    ++ db.password
    ++ "@"
    ++ db.host
    ++ ":"
    ++ db.port
    ++ "/"
    ++ project_name
    ++ "\n    volumes:\n      - ./functions:/home/deno/functions:Z\n    healthcheck:\n      test"
    ++ ": [\"CMD\", \"curl\", \"-f\", \"http://localhost:8081/status\"]\n      interval: 10s\n  "
    ++ "    timeout: 5s\n      retries: 5\n    \n  analytics:\n    image: supabase/logflare:late"
    ++ "st\n    ports:\n      - "
    ++ toString (getPort ports "analytics")
    ++ ":4000\n    environment:\n      LOGFLARE_NODE_HOST: 127.0.0.1\n      DB_HOST: "
    ++ db.host
    ++ "\n      DB_PORT: "
    ++ db.port
    ++ "\n      DB_NAME: "
    ++ project_name
    ++ "\n      DB_USER: "
    ++ db.user
    ++ "\n      DB_PASSWORD: "
    ++ db.password
    ++ "\n      LOGFLARE_API_KEY: "
    ++ config.jwt_secret
    ++ "\n      LOGFLARE_SINGLE_TENANT: true\n      LOGFLARE_SUPABASE_MODE: true\n    healthchec"
    ++ "k:\n      test: [\"CMD\", \"curl\", \"-f\", \"http://localhost:4000/health\"]\n      int"
    ++ "erval: 10s\n      timeout: 5s\n      retries: 5\n    \n  vector:\n    image: timberio/ve"
    ++ "ctor:latest\n    ports:\n      - "
    ++ toString (getPort ports "vector")
    ++ ":9001\n    \nvolumes:\n  storage:\n"

/-- Embedding of the `kong_content` f-string of
`create_kong_config(project_path, config)`: the gateway routing table.
The f-string contains no interpolation points, so the rendering is a
constant function of the config. -/
def kong_config_content (_config : Config) : String :=
  "\n_format_version: \"1.1\"\n\nservices:\n  - name: auth-v1\n    url: http://auth:9999/ve"
    ++ "rify\n    routes:\n      - name: auth-v1-routes\n        paths:\n          - /auth/v1/*"
    ++ "\n        strip_path: true\n    \n  - name: rest-v1\n    url: http://rest:3000/\n    rou"
    ++ "tes:\n      - name: rest-v1-routes\n        paths:\n          - /rest/v1/*\n        stri"
    ++ "p_path: true\n    \n  - name: realtime-v1\n    url: http://realtime:4000/socket/\n    ro"
    ++ "utes:\n      - name: realtime-v1-routes\n        paths:\n          - /realtime/v1/*\n   "
    ++ "     strip_path: true\n    \n  - name: storage-v1\n    url: http://storage:5000/\n    ro"
    ++ "utes:\n      - name: storage-v1-routes\n        paths:\n          - /storage/v1/*\n     "
    ++ "   strip_path: true\n    \n  - name: functions-v1\n    url: http://functions:8081/\n    "
    ++ "routes:\n      - name: functions-v1-routes\n        paths:\n          - /functions/v1/*"
    ++ "\n        strip_path: true\n"

/-- The args of one `_run_compose` call, recorded in the instrumentation
trace each lifecycle operation returns. -/
abbrev ComposeCall := List String

/-! ## Lifecycle operations

Each operation returns its Python return value, the filesystem after the
call, and the instrumentation trace of `_run_compose` invocations it
made (in order). -/

/-- Embedding of the Python substring test `pat in text`
(`str.__contains__`), used for the deprecated image tag. -/
def containsSub (text pat : String) : Bool :=
  (text.splitOn pat).length != 1

/-- Embedding of `start_project(project_name)`: path and compose-file
checks, the one-time GoTrue image-tag rewrite of `docker-compose.yml`
(applied only when the deprecated tag occurs in it), a best-effort
`pull`, then `up -d`; success iff the `up` exit code is zero. -/
def start_project (env : Env) (renv : RuntimeEnv) (fs : FS)
    (project_name : String) :
    (Bool × String × String) × FS × List ComposeCall :=
  match lookupFS fs project_name with
  | none =>
    ((false, "", "Project path not found: " ++ projectPath env project_name), fs, [])
  | some dir =>
    match dir.composeFile with
    | none => ((false, "", "docker-compose.yml not found"), fs, [])
    | some compose_text =>
      let migrated := compose_text.replace "supabase/gotrue:latest" "supabase/gotrue:v2"
      let fs1 :=
        if containsSub compose_text "supabase/gotrue:latest" then
          setFS fs project_name { dir with composeFile := some migrated }
        else fs
      let _pull := run_compose renv ["pull"]
      let (rc, out, err) := run_compose renv ["up", "-d"]
      ((rc == 0, out, err), fs1, [["pull"], ["up", "-d"]])

/-- Embedding of `stop_project(project_name)`: path and compose-file
checks, then `down`; success iff the exit code is zero.  Writes
nothing. -/
def stop_project (env : Env) (renv : RuntimeEnv) (fs : FS)
    (project_name : String) :
    (Bool × String × String) × FS × List ComposeCall :=
  match lookupFS fs project_name with
  | none =>
    ((false, "", "Project path not found: " ++ projectPath env project_name), fs, [])
  | some dir =>
    match dir.composeFile with
    | none => ((false, "", "docker-compose.yml not found"), fs, [])
    | some _ =>
      let (rc, out, err) := run_compose renv ["down"]
      ((rc == 0, out, err), fs, [["down"]])

/-- Embedding of the newline join over non-empty parts,
`"\n".join(filter(None, [a, b]))`. -/
def joinNonEmpty (a b : String) : String :=
  if a = "" then b else if b = "" then a else a ++ "\n" ++ b

/-- Embedding of `delete_project(project_name)`: path check, best-effort
`stop_project` (result discarded), `down -v --remove-orphans`, then
`shutil.rmtree` of the project directory regardless of the compose exit
code (directory removal always succeeds in this filesystem model);
overall success requires the compose exit code to be zero. -/
def delete_project (env : Env) (renv : RuntimeEnv) (fs : FS)
    (project_name : String) :
    (Bool × String × String) × FS × List ComposeCall :=
  match lookupFS fs project_name with
  | none =>
    ((false, "", "Project path not found: " ++ projectPath env project_name), fs, [])
  | some _ =>
    let (_, fs1, tr1) := stop_project env renv fs project_name
    let (rc, out1, err1) := run_compose renv ["down", "-v", "--remove-orphans"]
    let fs2 := removeFS fs1 project_name
    let out2 := "project directory removed"
    let err2 := ""
    let success := (rc == 0) && (err2 == "")
    ((success, joinNonEmpty out1 out2, joinNonEmpty err1 err2), fs2,
      tr1 ++ [["down", "-v", "--remove-orphans"]])

/-- Embedding of `status_project` from `src/cli/cli.py`: requires the
persisted config file to exist, reads it, live-probes the runtime with a
read-only `docker compose ps` query, prints, and returns the process
exit code.  It performs no write, so the filesystem is passed through
unchanged. -/
def status_project (_env : Env) (renv : RuntimeEnv) (fs : FS)
    (project_name : String) : Nat × FS :=
  match lookupFS fs project_name with
  | none => (1, fs)
  | some dir =>
    match dir.config with
    | none => (1, fs)
    | some _config =>
      let _running := renv.runPrimary ["ps", "--services", "--filter", "status=running"]
      (0, fs)

/-- The `valid_machine_sizes` list of `create_project`. -/
def valid_machine_sizes : List String := ["small", "medium", "large", "xlarge"]

/-- The `base_ports` dictionary of `create_project`, in source order. -/
def base_ports : List (String × Nat) :=
  [("studio", 3000), ("kong", 8000), ("auth", 9999), ("rest", 3001),
   ("realtime", 4000), ("storage", 5000), ("meta", 8080),
   ("functions", 54321), ("analytics", 4001), ("vector", 9001)]

/-- Embedding of `create_project(project_name, machine_size, specs,
db_host, db_port, db_user, db_password)`: duplicate-name and
machine-size validation (raising `ValueError` before any write), then
`os.makedirs`, reference and credential generation, port allocation
(re-raised as `ValueError` on exhaustion, after the directory was
made), config persistence, topology rendering, and the auto-`start`
whose failure is only a warning. -/
def create_project (env : Env) (renv : RuntimeEnv) (fs : FS)
    (project_name machine_size specs : String)
    (db_host db_port db_user db_password : String) :
    Except String String × FS × List ComposeCall :=
  if (lookupFS fs project_name).isSome then
    (Except.error ("Project \x27" ++ project_name ++
      "\x27 already exists. Please choose a different name."), fs, [])
  else if !(valid_machine_sizes.contains machine_size) then
    (Except.error ("Invalid machine size. Choose from: " ++
      String.intercalate ", " valid_machine_sizes), fs, [])
  else
    let fs1 := setFS fs project_name ⟨none, none, none⟩
    let project_ref := mkProjectRef env.ref_bytes
    let (anon_key, service_key, jwt_secret) :=
      generate_jwt_keys ⟨env.hmac, env.secret_key, env.ref_bytes2, env.now⟩ project_ref
    let machine_ip := env.machine_ip
    match find_available_ports env.occupied base_ports with
    | Except.error e =>
      (Except.error ("Port allocation failed: " ++ e), fs1, [])
    | Except.ok available_ports =>
      let db_config : DbConfig := ⟨db_host, db_port, db_user, db_password, project_name⟩
      let config : Config :=
        ⟨project_name, project_ref, machine_size, specs, machine_ip, db_config,
         anon_key, service_key, jwt_secret, env.nowIso, available_ports⟩
      let fs2 := setFS fs1 project_name ⟨some config, none, none⟩
      let fs3 := setFS fs2 project_name
        ⟨some config, some (docker_compose_content project_name config), none⟩
      let fs4 := setFS fs3 project_name
        ⟨some config, some (docker_compose_content project_name config),
         some (kong_config_content config)⟩
      let (_started, fs5, tr) := start_project env renv fs4 project_name
      (Except.ok (projectPath env project_name), fs5, tr)

/-! ## Observation helpers and concrete witness data -/

/-- The persisted config component of a project directory:
`none` when the directory itself is absent. -/
def persistedConfig (fs : FS) (name : String) : Option (Option Config) :=
  (lookupFS fs name).map fun d => d.config

/-- The `ports` mapping of the persisted config of a project, when both
the directory and its config file exist. -/
def persistedPorts (fs : FS) (name : String) : Option (List (String × Nat)) :=
  match persistedConfig fs name with
  | some (some cfg) => some cfg.ports
  | _ => none

/-- Concrete environment: exactly the 101 ports 3000–3100 are occupied. -/
def occ3000to3100 (p : Nat) : Bool := decide (3000 ≤ p) && decide (p < 3101)

/-- A concrete HMAC oracle for witnesses. -/
def hmac0 : String → Payload → String := fun secret p => secret ++ ":" ++ p.role ++ ":" ++ p.ref

/-- The sixteen random bytes 0–15, a concrete draw for witnesses. -/
def bytes0 : List Nat := [0, 1, 2, 3, 4, 5, 6, 7, 8, 9, 10, 11, 12, 13, 14, 15]

/-- A concrete ambient environment for witnesses: all ports free. -/
def env0 : Env :=
  { projects_dir := "/root/supabase_projects"
    occupied := allFree
    hmac := hmac0
    secret_key := "secret0"
    ref_bytes := bytes0
    ref_bytes2 := bytes0
    now := 1700000000
    nowIso := "2023-11-14T22:13:20"
    machine_ip := "127.0.0.1" }

/-- A concrete credential environment for witnesses. -/
def cred0 : CredEnv := ⟨hmac0, "secret0", bytes0, 1700000000⟩

/-- A concrete host with only the primary runtime dialect, always
exiting zero. -/
def renv0 : RuntimeEnv :=
  ⟨true, false, fun _ => Except.ok (0, "", ""), fun _ => Except.ok (0, "", "")⟩

/-- A concrete host with both dialects installed where the primary
executes but exits non-zero and the legacy dialect exits zero. -/
def renvBoth : RuntimeEnv :=
  ⟨true, true,
   fun _ => Except.ok (1, "primary-out", "primary-err"),
   fun _ => Except.ok (0, "legacy-out", "legacy-err")⟩

/-- A concrete persisted database configuration for witnesses. -/
def sampleDb : DbConfig := ⟨"192.168.1.43", "5432", "postgres", "your_password", "alpha"⟩

/-- A concrete persisted project configuration for witnesses. -/
def sampleConfig : Config :=
  ⟨"alpha", "aaecawqfbgcicqolda0o", "small", "4CPU/8GB RAM", "127.0.0.1", sampleDb,
   ⟨⟨"supabase", "aaecawqfbgcicqolda0o", "anon", 1700000000, 2015360000⟩, "sig1"⟩,
   ⟨⟨"supabase", "aaecawqfbgcicqolda0o", "service_role", 1700000000, 2015360000⟩, "sig2"⟩,
   "jwtsecret0", "2023-11-14T22:13:20", base_ports⟩

/-- A projects root already holding a project named `alpha`. -/
def fsAlpha : FS := [("alpha", ⟨none, none, none⟩)]

/-! ## Lemmas about the port probe -/

lemma probeAux_free {occ : Nat → Bool} :
    ∀ {fuel port p : Nat}, probeAux occ fuel port = some p →
      occ p = false ∧ port ≤ p ∧ p ≤ port + fuel := by
  intro fuel
  induction fuel with
  | zero =>
    intro port p h
    unfold probeAux at h
    split at h
    · rename_i hav
      cases h
      refine ⟨?_, Nat.le_refl _, Nat.le_add_right _ _⟩
      simpa [check_port_availability] using hav
    · cases h
  | succ f ih =>
    intro port p h
    unfold probeAux at h
    split at h
    · rename_i hav
      cases h
      refine ⟨?_, Nat.le_refl _, Nat.le_add_right _ _⟩
      simpa [check_port_availability] using hav
    · obtain ⟨h1, h2, h3⟩ := ih h
      exact ⟨h1, by omega, by omega⟩

lemma probeAux_of_free {occ : Nat → Bool} {port : Nat} (h : occ port = false)
    (fuel : Nat) : probeAux occ fuel port = some port := by
  unfold probeAux
  simp [check_port_availability, h]

lemma probeAux_none {occ : Nat → Bool} :
    ∀ {fuel port : Nat}, (∀ i, i ≤ fuel → occ (port + i) = true) →
      probeAux occ fuel port = none := by
  intro fuel
  induction fuel with
  | zero =>
    intro port h
    have h0 := h 0 (Nat.le_refl 0)
    unfold probeAux
    simp [check_port_availability, Nat.add_zero] at h0 ⊢
    exact h0
  | succ f ih =>
    intro port h
    have h0 := h 0 (Nat.zero_le _)
    rw [Nat.add_zero] at h0
    unfold probeAux
    rw [if_neg (by simp [check_port_availability, h0])]
    exact ih fun i hi => by
      have := h (i + 1) (by omega)
      simpa [Nat.add_assoc, Nat.add_comm 1 i] using this

lemma probeFrom_free {occ : Nat → Bool} {base p : Nat}
    (h : probeFrom occ base = some p) :
    occ p = false ∧ base ≤ p ∧ p ≤ base + 100 :=
  probeAux_free h

lemma probeFrom_of_free {occ : Nat → Bool} {base : Nat} (h : occ base = false) :
    probeFrom occ base = some base :=
  probeAux_of_free h 100

lemma probeFrom_none_of_window {occ : Nat → Bool} {base : Nat}
    (h : window101Occupied occ base = true) : probeFrom occ base = none := by
  apply probeAux_none
  intro i hi
  have := List.all_eq_true.mp h i (List.mem_range.mpr (by omega))
  simpa using this

/-! ## Lemmas about `find_available_ports` -/

lemma find_available_ports_ok {occ : Nat → Bool} :
    ∀ {l r : List (String × Nat)}, find_available_ports occ l = Except.ok r →
      r.map Prod.fst = l.map Prod.fst ∧ ∀ p ∈ r, occ p.2 = false := by
  intro l
  induction l with
  | nil =>
    intro r h
    unfold find_available_ports at h
    cases h
    simp
  | cons hd tl ih =>
    intro r h
    obtain ⟨s, b⟩ := hd
    unfold find_available_ports at h
    cases hp : probeFrom occ b with
    | none => rw [hp] at h; cases h
    | some port =>
      rw [hp] at h
      cases ht : find_available_ports occ tl with
      | error e => rw [ht] at h; cases h
      | ok tail =>
        rw [ht] at h
        cases h
        obtain ⟨ih1, ih2⟩ := ih ht
        refine ⟨by simp [ih1], ?_⟩
        intro p hmem
        rcases List.mem_cons.mp hmem with hhd | htl

        · subst hhd
          exact (probeFrom_free hp).1
        · exact ih2 _ htl

lemma find_available_ports_all_free {occ : Nat → Bool} :
    ∀ {l : List (String × Nat)}, (∀ p ∈ l, occ p.2 = false) →
      find_available_ports occ l = Except.ok l := by
  intro l
  induction l with
  | nil => intro _; rfl
  | cons hd tl ih =>
    intro h
    obtain ⟨s, b⟩ := hd
    have hb : occ b = false := h (s, b) (List.mem_cons_self _ _)
    unfold find_available_ports
    rw [probeFrom_of_free hb, ih fun p hp => h p (List.mem_cons_of_mem _ hp)]

lemma find_available_ports_error_at {occ : Nat → Bool} {s : String} {b : Nat}
    (hw : window101Occupied occ b = true) :
    ∀ {pre post : List (String × Nat)},
      (∀ p ∈ pre, (probeFrom occ p.2).isSome = true) →
      find_available_ports occ (pre ++ (s, b) :: post) =
        Except.error ("Could not find available port for " ++ s ++ " service") := by
  intro pre
  induction pre with
  | nil =>
    intro post _hpre
    simp only [List.nil_append]
    unfold find_available_ports
    rw [probeFrom_none_of_window hw]
  | cons hd tl ih =>
    intro post hpre
    obtain ⟨s', b'⟩ := hd
    have hhd : (probeFrom occ b').isSome = true :=
      hpre (s', b') (List.mem_cons_self _ _)
    obtain ⟨port, hport⟩ := Option.isSome_iff_exists.mp hhd
    simp only [List.cons_append]
    unfold find_available_ports
    rw [hport, ih fun p hp => hpre p (List.mem_cons_of_mem _ hp)]

/-! ## Lemmas about the filesystem model -/

lemma lookupFS_setFS_self (fs : FS) (n : String) (d : ProjectDir) :
    lookupFS (setFS fs n d) n = some d := by
  induction fs with
  | nil => simp [setFS, lookupFS]
  | cons e rest ih =>
    unfold setFS
    by_cases h : e.1 == n
    · rw [if_pos h]
      simp [lookupFS]
    · rw [if_neg h]
      unfold lookupFS at ih ⊢
      rw [List.find?_cons_of_neg _ (by simpa using h)]
      exact ih

lemma lookupFS_setFS_ne (fs : FS) (n m : String) (d : ProjectDir)
    (h : m ≠ n) : lookupFS (setFS fs n d) m = lookupFS fs m := by
  have hnm : (n == m) = false := beq_eq_false_iff_ne.mpr (Ne.symm h)
  induction fs with
  | nil =>
    simp [setFS, lookupFS, List.find?, hnm]
  | cons e rest ih =>
    unfold setFS
    by_cases he : e.1 == n
    · rw [if_pos he]
      have hen : e.1 = n := by simpa using he
      have hem : (e.1 == m) = false := by
        rw [hen]; exact hnm
      unfold lookupFS
      rw [List.find?_cons_of_neg _ (by simp [hnm]),
        List.find?_cons_of_neg _ (by simp [hem])]
    · rw [if_neg he]
      unfold lookupFS at ih ⊢
      by_cases hem : e.1 == m
      · rw [List.find?_cons_of_pos _ (by simpa using hem),
          List.find?_cons_of_pos _ (by simpa using hem)]
      · rw [List.find?_cons_of_neg _ (by simpa using hem),
          List.find?_cons_of_neg _ (by simpa using hem)]
        exact ih

/-! ## Frame lemmas for the lifecycle operations -/

lemma start_project_persistedConfig (env : Env) (renv : RuntimeEnv) (fs : FS)
    (pn n : String) :
    persistedConfig (start_project env renv fs pn).2.1 n = persistedConfig fs n := by
  unfold start_project
  split
  · rfl
  rename_i dir hl
  split
  · rfl
  rename_i text hc
  cases hs : containsSub text "supabase/gotrue:latest" with
  | false => simp only [hs, Bool.false_eq_true, if_false]
  | true =>
    simp only [hs, if_true]
    by_cases hn : n = pn
    · subst hn
      unfold persistedConfig
      rw [lookupFS_setFS_self, hl]
      rfl
    · unfold persistedConfig
      rw [lookupFS_setFS_ne _ _ _ _ hn]

lemma stop_project_fs (env : Env) (renv : RuntimeEnv) (fs : FS) (pn : String) :
    (stop_project env renv fs pn).2.1 = fs := by
  unfold stop_project
  split
  · rfl
  split
  · rfl
  rfl

lemma status_project_fs (env : Env) (renv : RuntimeEnv) (fs : FS) (pn : String) :
    (status_project env renv fs pn).2 = fs := by
  unfold status_project
  split
  · rfl
  split
  · rfl
  rfl

lemma start_project_persistedPorts (env : Env) (renv : RuntimeEnv) (fs : FS)
    (pn n : String) :
    persistedPorts (start_project env renv fs pn).2.1 n = persistedPorts fs n := by
  unfold persistedPorts
  rw [start_project_persistedConfig]

/-- On a create whose three guards pass (fresh name, valid size, a
successful port allocation), `create_project` reports the project path
and the persisted config records exactly the allocated port map. -/
lemma create_project_ok_persisted (env : Env) (renv : RuntimeEnv) (fs : FS)
    (pn ms specs dh dp du dpw : String) (aps : List (String × Nat))
    (h1 : lookupFS fs pn = none)
    (h2 : valid_machine_sizes.contains ms = true)
    (h3 : find_available_ports env.occupied base_ports = Except.ok aps) :
    (create_project env renv fs pn ms specs dh dp du dpw).1 =
      Except.ok (projectPath env pn) ∧
    persistedPorts (create_project env renv fs pn ms specs dh dp du dpw).2.1 pn =
      some aps := by
  unfold create_project
  rw [h1, h2, h3]
  constructor
  · rfl
  · change persistedPorts (start_project env renv _ pn).2.1 pn = some aps
    rw [start_project_persistedPorts]
    unfold persistedPorts persistedConfig
    rw [lookupFS_setFS_self]
    rfl

/-! ## Lemmas about the base64 alphabet -/

lemma b64Char_toLower_alnum :
    ∀ m, m < 64 →
      ((Char.toLower (b64Char m) == Char.ofNat 95 ||
        Char.toLower (b64Char m) == Char.ofNat 45) = false →
       (Char.isLower (Char.toLower (b64Char m)) ||
        Char.isDigit (Char.toLower (b64Char m))) = true) := by
  decide

lemma mem_b64Encode :
    ∀ (bytes : List Nat), (∀ b ∈ bytes, b < 256) →
      ∀ c ∈ b64EncodeNoPad bytes, ∃ m, m < 64 ∧ c = b64Char m
  | [], _, c, hc => by simp [b64EncodeNoPad] at hc
  | [b1], hb, c, hc => by
    have h1 : b1 < 256 := hb b1 (by simp)
    simp only [b64EncodeNoPad, List.mem_cons, List.not_mem_nil, or_false] at hc
    rcases hc with rfl | rfl
    · exact ⟨b1 / 4, by omega, rfl⟩
    · exact ⟨b1 % 4 * 16, by omega, rfl⟩
  | [b1, b2], hb, c, hc => by
    have h1 : b1 < 256 := hb b1 (by simp)
    have h2 : b2 < 256 := hb b2 (by simp)
    simp only [b64EncodeNoPad, List.mem_cons, List.not_mem_nil, or_false] at hc
    rcases hc with rfl | rfl | rfl
    · exact ⟨b1 / 4, by omega, rfl⟩
    · exact ⟨b1 % 4 * 16 + b2 / 16, by omega, rfl⟩
    · exact ⟨b2 % 16 * 4, by omega, rfl⟩
  | b1 :: b2 :: b3 :: rest, hb, c, hc => by
    have h1 : b1 < 256 := hb b1 (by simp)
    have h2 : b2 < 256 := hb b2 (by simp)
    have h3 : b3 < 256 := hb b3 (by simp)
    simp only [b64EncodeNoPad, List.mem_cons] at hc
    rcases hc with rfl | rfl | rfl | rfl | hmem
    · exact ⟨b1 / 4, by omega, rfl⟩
    · exact ⟨b1 % 4 * 16 + b2 / 16, by omega, rfl⟩
    · exact ⟨b2 % 16 * 4 + b3 / 64, by omega, rfl⟩
    · exact ⟨b3 % 64, by omega, rfl⟩
    · exact mem_b64Encode rest (fun b hbm => hb b (by simp [hbm])) c hmem

/-! ## Claim theorems -/

/-- C6, counterexample: sixteen `0xFF` bytes URL-safe encode to
twenty-one `_` characters and a `w`; after lowercasing and stripping
`_`/`-` the generated project reference is `"w"`, of length 1 — the
claimed length of exactly 20 fails. -/
theorem c6_counterexample :
    (List.replicate 16 255).length = 16 ∧
    (∀ b ∈ List.replicate 16 255, b < 256) ∧
    mkProjectRef (List.replicate 16 255) = "w" ∧
    (mkProjectRef (List.replicate 16 255)).length ≠ 20 := by
  decide

/-- C6, amended: for any byte draw, the generated project reference
consists only of lowercase alphanumeric characters and has length at
most 20 (exactly 20 only when at most two of the 22 encoded characters
are stripped as `_`/`-`). -/
theorem c6_project_ref_shape (bytes : List Nat) (hb : ∀ b ∈ bytes, b < 256) :
    (mkProjectRef bytes).length ≤ 20 ∧
    ∀ c ∈ (mkProjectRef bytes).data, (c.isLower || c.isDigit) = true := by
  constructor
  · show (String.mk _).length ≤ 20
    simp only [String.length]
    exact List.length_take_le _ _
  · intro c hc
    simp only [mkProjectRef] at hc
    have hc1 : c ∈ (((b64EncodeNoPad bytes).map Char.toLower).filter
        fun c => !(c == Char.ofNat 95 || c == Char.ofNat 45)) :=
      List.mem_of_mem_take hc
    obtain ⟨hcm, hp⟩ := List.mem_filter.mp hc1
    obtain ⟨c0, hc0, rfl⟩ := List.mem_map.mp hcm
    obtain ⟨m, hm, rfl⟩ := mem_b64Encode bytes hb c0 hc0
    exact b64Char_toLower_alnum m hm (by simpa using hp)

/-- C6, witness for the amended theorem: the byte draw `0, 1, …, 15`
produces a reference of length at most 20 made of lowercase
alphanumerics (concretely `"aaecawqfbgcicqolda0o"`). -/
theorem c6_project_ref_witness :
    (∀ b ∈ bytes0, b < 256) ∧
    ((mkProjectRef bytes0).length ≤ 20 ∧
     ∀ c ∈ (mkProjectRef bytes0).data, (c.isLower || c.isDigit) = true) :=
  ⟨by decide, c6_project_ref_shape bytes0 (by decide)⟩

/-- C1, counterexample: with only port 3000 occupied, the services
`studio` (base 3000) and `rest` (base 3001) each have a free port inside
their 100-port probe windows and start from distinct bases, yet
allocation assigns both the same port 3001 — the claimed pairwise
distinctness fails. -/
theorem c1_counterexample :
    freeInWindow100 occOnly3000 3000 = true ∧
    freeInWindow100 occOnly3000 3001 = true ∧
    (3000 : Nat) ≠ 3001 ∧
    find_available_ports occOnly3000 [("studio", 3000), ("rest", 3001)] =
      Except.ok [("studio", 3001), ("rest", 3001)] := by
  decide

/-- C1, amended: every successful allocation preserves the service names
in order and returns only ports verified free at selection time; when
every service's own base port is free, each service is allocated exactly
its base, so in that case services with pairwise distinct bases receive
pairwise distinct ports.  Cross-service distinctness does not hold for
merely distinct bases, because probing can move one service onto a port
another service also selects. -/
theorem c1_allocation_sound (occ : Nat → Bool) (l r : List (String × Nat))
    (h : find_available_ports occ l = Except.ok r) :
    r.map Prod.fst = l.map Prod.fst ∧
    (∀ p ∈ r, occ p.2 = false) ∧
    ((∀ p ∈ l, occ p.2 = false) → r = l) ∧
    ((∀ p ∈ l, occ p.2 = false) → (l.map Prod.snd).Nodup →
      (r.map Prod.snd).Nodup) := by
  obtain ⟨hk, hf⟩ := find_available_ports_ok h
  have hall : (∀ p ∈ l, occ p.2 = false) → r = l := by
    intro hfree
    have hl := find_available_ports_all_free hfree
    rw [hl] at h
    exact (Except.ok.inj h).symm
  refine ⟨hk, hf, hall, ?_⟩
  intro hfree hnd
  rw [hall hfree]
  exact hnd

/-- C1, witness for the amended theorem: on a host with all ports free,
allocating the repository's `base_ports` succeeds and the amended
conclusion holds at that instance. -/
theorem c1_allocation_sound_witness :
    find_available_ports allFree base_ports = Except.ok base_ports ∧
    (base_ports.map Prod.fst = base_ports.map Prod.fst ∧
     (∀ p ∈ base_ports, allFree p.2 = false) ∧
     ((∀ p ∈ base_ports, allFree p.2 = false) → base_ports = base_ports) ∧
     ((∀ p ∈ base_ports, allFree p.2 = false) →
       (base_ports.map Prod.snd).Nodup → (base_ports.map Prod.snd).Nodup)) :=
  ⟨by decide, c1_allocation_sound allFree base_ports base_ports (by decide)⟩

/-- C2, confirmed: creating a project whose directory already exists
fails with the duplicate-name `ValueError` of the source, leaves the
projects root exactly as it was, and performs no runtime invocation —
the uniqueness check precedes every filesystem write in
`create_project`. -/
theorem c2_duplicate_create_no_mutation (env : Env) (renv : RuntimeEnv)
    (fs : FS) (pn ms specs dh dp du dpw : String)
    (h : (lookupFS fs pn).isSome = true) :
    create_project env renv fs pn ms specs dh dp du dpw =
      (Except.error ("Project \x27" ++ pn ++
        "\x27 already exists. Please choose a different name."), fs, []) := by
  unfold create_project
  rw [h]
  rfl

/-- C2, witness: a second create of `alpha` against a root already
holding `alpha` fails with the duplicate error and changes nothing. -/
theorem c2_duplicate_create_witness :
    (lookupFS fsAlpha "alpha").isSome = true ∧
    create_project env0 renv0 fsAlpha "alpha" "small" "4CPU/8GB RAM"
        "192.168.1.43" "5432" "postgres" "your_password" =
      (Except.error ("Project \x27" ++ "alpha" ++
        "\x27 already exists. Please choose a different name."), fsAlpha, []) :=
  ⟨by decide,
   c2_duplicate_create_no_mutation env0 renv0 fsAlpha "alpha" "small"
     "4CPU/8GB RAM" "192.168.1.43" "5432" "postgres" "your_password" (by decide)⟩

/-- C3, counterexample: with exactly the 100 ports 3000–3099 occupied —
the whole 100-port probe window starting at the base 3000 — allocation
does not raise: the loop also probes port 3100 and returns it, because
the guard `port > base_port + 100` fires only after 101 occupied
ports. -/
theorem c3_counterexample :
    window100Occupied occ3000to3099 3000 = true ∧
    find_available_ports occ3000to3099 [("studio", 3000)] =
      Except.ok [("studio", 3100)] := by
  decide

/-- C3, amended: if every port of the 101-port window `base … base+100`
of some service is occupied and every earlier service in iteration order
can allocate, the allocation aborts with the exception naming exactly
that service, and no partial port map is returned — the ports already
found for earlier services are discarded with the raise. -/
theorem c3_exhaustion (occ : Nat → Bool) (pre post : List (String × Nat))
    (s : String) (b : Nat)
    (hw : window101Occupied occ b = true)
    (hpre : ∀ p ∈ pre, (probeFrom occ p.2).isSome = true) :
    find_available_ports occ (pre ++ (s, b) :: post) =
      Except.error ("Could not find available port for " ++ s ++ " service") :=
  find_available_ports_error_at hw hpre

/-- C3, witness: occupying ports 3000–3100 makes allocation for `studio`
raise the exhaustion error naming `studio`. -/
theorem c3_exhaustion_witness :
    window101Occupied occ3000to3100 3000 = true ∧
    find_available_ports occ3000to3100 ([] ++ ("studio", 3000) :: []) =
      Except.error ("Could not find available port for " ++ "studio" ++ " service") :=
  ⟨by decide, c3_exhaustion occ3000to3100 [] [] "studio" 3000 (by decide) (by simp)⟩

/-- C5, confirmed: every issuance returns two tokens both of which
decode under the single returned secret, to claim sets that are
identical except for `role` (`anon` versus `service_role`): issuer
`supabase`, the same project reference, the same issued-at time
`env.now`, and expiry `env.now + 365*24*60*60*10` (ten 365-day years,
315360000 seconds); both tokens are signed with the same returned
secret. -/
theorem c5_credential_pair (env : CredEnv) (project_ref : String) :
    jwtDecode env.hmac (generate_jwt_keys env project_ref).1
        (generate_jwt_keys env project_ref).2.2 =
      some ⟨"supabase",
        if project_ref = "" then mkProjectRef env.ref_bytes else project_ref,
        "anon", env.now, env.now + 365 * 24 * 60 * 60 * 10⟩ ∧
    jwtDecode env.hmac (generate_jwt_keys env project_ref).2.1
        (generate_jwt_keys env project_ref).2.2 =
      some ⟨"supabase",
        if project_ref = "" then mkProjectRef env.ref_bytes else project_ref,
        "service_role", env.now, env.now + 365 * 24 * 60 * 60 * 10⟩ := by
  unfold generate_jwt_keys jwtDecode jwtEncode
  simp

/-- C7, counterexample: with both dialects installed and the primary
executing but exiting non-zero, `_run_compose` does not return the
primary's result — it advances to the legacy dialect and returns the
legacy result, masking the primary's non-zero outcome. -/
theorem c7_counterexample :
    renvBoth.docker_installed = true ∧
    renvBoth.dockercompose_installed = true ∧
    renvBoth.runPrimary ["up", "-d"] = Except.ok (1, "primary-out", "primary-err") ∧
    run_compose renvBoth ["up", "-d"] = (0, "legacy-out", "legacy-err") :=
  ⟨rfl, rfl, rfl, rfl⟩

/-- C7, amended: when the primary dialect is installed and executes with
a non-zero exit code, the bridge advances to the legacy dialect whenever
it is installed (returning the legacy result, whether zero or non-zero,
or — when the legacy invocation itself raises — exit 1 with the
primary's stdout and the raised message); the primary's non-zero result
is returned only when the legacy dialect is not installed. -/
theorem c7_fallback (renv : RuntimeEnv) (args : List String) (rc : Int)
    (out err : String)
    (hd : renv.docker_installed = true)
    (hp : renv.runPrimary args = Except.ok (rc, out, err))
    (hrc : (rc == 0) = false) :
    run_compose renv args =
      (if renv.dockercompose_installed then
        match renv.runLegacy args with
        | Except.ok (rc2, out2, err2) =>
          if rc2 == 0 then ((0 : Int), out2, err2) else (rc2, out2, err2)
        | Except.error e => ((1 : Int), out, e)
      else (rc, out, err)) := by
  unfold run_compose
  cases hl : renv.dockercompose_installed with
  | false => simp [hd, hl, composeLoop, runDialect, hp, hrc]
  | true =>
    cases hleg : renv.runLegacy args with
    | ok t =>
      obtain ⟨rc2, out2, err2⟩ := t
      cases hrc2 : rc2 == 0 with
      | false => simp [hd, hl, composeLoop, runDialect, hp, hrc, hleg, hrc2]
      | true => simp [hd, hl, composeLoop, runDialect, hp, hrc, hleg, hrc2]
    | error e => simp [hd, hl, composeLoop, runDialect, hp, hrc, hleg]

/-- C7, witness for the amended theorem: on the two-dialect host where
the primary exits 1, the bridge returns the legacy dialect's zero-exit
result. -/
theorem c7_fallback_witness :
    renvBoth.docker_installed = true ∧
    renvBoth.runPrimary ["down"] = Except.ok (1, "primary-out", "primary-err") ∧
    (((1 : Int) == 0) = false) ∧
    run_compose renvBoth ["down"] =
      (if renvBoth.dockercompose_installed then
        match renvBoth.runLegacy ["down"] with
        | Except.ok (rc2, out2, err2) =>
          if rc2 == 0 then ((0 : Int), out2, err2) else (rc2, out2, err2)
        | Except.error e => ((1 : Int), "primary-out", e)
      else (1, "primary-out", "primary-err")) :=
  ⟨rfl, rfl, by decide,
   c7_fallback renvBoth ["down"] 1 "primary-out" "primary-err" rfl rfl (by decide)⟩

/-- C8, confirmed: topology rendering is a pure function of the project
name and config — two renderings of an unchanged config produce
byte-identical compose-topology and gateway-routing output. -/
theorem c8_render_deterministic (project_name : String) (c1 c2 : Config)
    (h : c1 = c2) :
    docker_compose_content project_name c1 = docker_compose_content project_name c2 ∧
    kong_config_content c1 = kong_config_content c2 := by
  subst h
  exact ⟨rfl, rfl⟩

/-- C8, witness: rendering the sample config twice yields identical
bytes. -/
theorem c8_render_witness :
    sampleConfig = sampleConfig ∧
    (docker_compose_content "alpha" sampleConfig =
        docker_compose_content "alpha" sampleConfig ∧
     kong_config_content sampleConfig = kong_config_content sampleConfig) :=
  ⟨rfl, c8_render_deterministic "alpha" sampleConfig sampleConfig rfl⟩

/-- C9, confirmed: `start` preserves the persisted config of every
project (even when its compatibility rewrite touches the generated
compose file), and `stop` and `status` leave the whole projects root
unchanged. -/
theorem c9_config_frame (env : Env) (renv : RuntimeEnv) (fs : FS)
    (pn n : String) :
    persistedConfig (start_project env renv fs pn).2.1 n = persistedConfig fs n ∧
    (stop_project env renv fs pn).2.1 = fs ∧
    (status_project env renv fs pn).2 = fs :=
  ⟨start_project_persistedConfig env renv fs pn n,
   stop_project_fs env renv fs pn,
   status_project_fs env renv fs pn⟩

/-- C10, confirmed: `start`, `stop` and `delete` are total functions
returning a `(success, stdout, stderr)` triple; on a missing project
directory each returns failure with the path-not-found message, leaves
the filesystem untouched, and performs no runtime invocation (empty
trace) — whereas `create` signals validation failure by raising
(modelled as `Except.error`), here shown for an invalid machine
size. -/
theorem c10_missing_dir_total (env : Env) (renv : RuntimeEnv) (fs : FS)
    (pn ms specs dh dp du dpw : String)
    (h : lookupFS fs pn = none)
    (hms : valid_machine_sizes.contains ms = false) :
    start_project env renv fs pn =
      ((false, "", "Project path not found: " ++ projectPath env pn), fs, []) ∧
    stop_project env renv fs pn =
      ((false, "", "Project path not found: " ++ projectPath env pn), fs, []) ∧
    delete_project env renv fs pn =
      ((false, "", "Project path not found: " ++ projectPath env pn), fs, []) ∧
    (create_project env renv fs pn ms specs dh dp du dpw).1 =
      Except.error ("Invalid machine size. Choose from: " ++
        String.intercalate ", " valid_machine_sizes) := by
  refine ⟨?_, ?_, ?_, ?_⟩
  · unfold start_project
    rw [h]
  · unfold stop_project
    rw [h]
  · unfold delete_project
    rw [h]
  · unfold create_project
    rw [h, hms]
    rfl

/-- C10, witness: the three lifecycle operations on the absent project
`ghost` fail with the path-not-found message without invoking the
runtime, and `create` with the invalid size `huge` raises the
validation error. -/
theorem c10_missing_dir_witness :
    lookupFS [] "ghost" = none ∧
    valid_machine_sizes.contains "huge" = false ∧
    (start_project env0 renv0 [] "ghost" =
      ((false, "", "Project path not found: " ++ projectPath env0 "ghost"), [], []) ∧
    stop_project env0 renv0 [] "ghost" =
      ((false, "", "Project path not found: " ++ projectPath env0 "ghost"), [], []) ∧
    delete_project env0 renv0 [] "ghost" =
      ((false, "", "Project path not found: " ++ projectPath env0 "ghost"), [], []) ∧
    (create_project env0 renv0 [] "ghost" "huge" "specs" "h" "5432" "u" "p").1 =
      Except.error ("Invalid machine size. Choose from: " ++
        String.intercalate ", " valid_machine_sizes)) :=
  ⟨rfl, by decide,
   c10_missing_dir_total env0 renv0 [] "ghost" "huge" "specs" "h" "5432" "u" "p"
     rfl (by decide)⟩

/-- C4, counterexample: a successful create on an all-free host persists
a `ports` mapping with 10 service entries (`studio`, `kong`, `auth`,
`rest`, `realtime`, `storage`, `meta`, `functions`, `analytics`,
`vector`), not the 9 the claim states. -/
theorem c4_counterexample :
    (create_project env0 renv0 [] "alpha" "small" "4CPU/8GB RAM"
        "192.168.1.43" "5432" "postgres" "your_password").1 =
      Except.ok (projectPath env0 "alpha") ∧
    (persistedPorts (create_project env0 renv0 [] "alpha" "small" "4CPU/8GB RAM"
        "192.168.1.43" "5432" "postgres" "your_password").2.1 "alpha").map
      List.length = some 10 ∧
    ¬ (persistedPorts (create_project env0 renv0 [] "alpha" "small" "4CPU/8GB RAM"
        "192.168.1.43" "5432" "postgres" "your_password").2.1 "alpha").map
      List.length = some 9 := by
  obtain ⟨hok, hpers⟩ :=
    create_project_ok_persisted env0 renv0 [] "alpha" "small" "4CPU/8GB RAM"
      "192.168.1.43" "5432" "postgres" "your_password" base_ports rfl (by decide)
      (by decide)
  refine ⟨hok, ?_, ?_⟩
  · rw [hpers]
    rfl
  · rw [hpers]
    decide

/-- C4, amended: for every successful create, the persisted config's
`ports` mapping contains exactly 10 distinct service entries, keyed by
the 10 pairwise-distinct service names of `base_ports`. -/
theorem c4_ports_count (env : Env) (renv : RuntimeEnv) (fs : FS)
    (pn ms specs dh dp du dpw path : String)
    (h : (create_project env renv fs pn ms specs dh dp du dpw).1 =
      Except.ok path) :
    ∃ ps, persistedPorts
        (create_project env renv fs pn ms specs dh dp du dpw).2.1 pn = some ps ∧
      ps.map Prod.fst = base_ports.map Prod.fst ∧
      ps.length = 10 ∧
      (ps.map Prod.fst).Nodup := by
  cases h1 : (lookupFS fs pn).isSome with
  | true =>
    exfalso
    unfold create_project at h
    rw [h1] at h
    simp at h
  | false =>
    have h1' : lookupFS fs pn = none := by
      cases hv : lookupFS fs pn with
      | none => rfl
      | some d => rw [hv] at h1; cases h1
    cases h2 : valid_machine_sizes.contains ms with
    | false =>
      exfalso
      unfold create_project at h
      rw [h1', h2] at h
      simp at h
    | true =>
      cases h3 : find_available_ports env.occupied base_ports with
      | error e =>
        exfalso
        unfold create_project at h
        rw [h1', h2, h3] at h
        simp at h
      | ok aps =>
        obtain ⟨hok, hpers⟩ :=
          create_project_ok_persisted env renv fs pn ms specs dh dp du dpw aps
            h1' h2 h3
        have hkeys := (find_available_ports_ok h3).1
        refine ⟨aps, hpers, hkeys, ?_, ?_⟩
        · have hlen := congrArg List.length hkeys
          simp only [List.length_map] at hlen
          rw [hlen]
          rfl
        · rw [hkeys]
          decide

/-- C4, witness for the amended theorem: the concrete all-free create of
`alpha` succeeds and therefore persists a 10-entry, duplicate-free port
map. -/
theorem c4_ports_count_witness :
    (create_project env0 renv0 [] "alpha" "small" "4CPU/8GB RAM"
        "192.168.1.43" "5432" "postgres" "your_password").1 =
      Except.ok (projectPath env0 "alpha") ∧
    ∃ ps, persistedPorts (create_project env0 renv0 [] "alpha" "small"
        "4CPU/8GB RAM" "192.168.1.43" "5432" "postgres" "your_password").2.1
        "alpha" = some ps ∧
      ps.map Prod.fst = base_ports.map Prod.fst ∧
      ps.length = 10 ∧
      (ps.map Prod.fst).Nodup :=
  ⟨rfl,
   c4_ports_count env0 renv0 [] "alpha" "small" "4CPU/8GB RAM" "192.168.1.43"
     "5432" "postgres" "your_password" (projectPath env0 "alpha") rfl⟩

end Supabase
